import Mathlib

/-!
Verification of the admission-controlled transcode-and-deliver pipeline.

This file shallowly embeds the pure/decidable core of the repository's
Python sources (`src/app/ffmpeg_utils.py`, `src/app/handlers.py`,
`src/app/analytics.py`) and proves properties of the embedded
definitions.  External effects (subprocess runs, Telegram sends, SQLite
calls, probes) are modelled as explicit outcome parameters supplied in
environment records; all control flow that consumes those outcomes is
translated from the source.  Python floats are modelled exactly as
rationals, `int(...)` truncation as truncation toward zero, and Python
string truthiness (`x or y`, `if s:`) explicitly.
-/

namespace VideoNoteBot

/-! ## String helpers (Python `.lower()`, `.strip()`, substring tests) -/

/-- Model of `needle` being a literal prefix of `hay` (character lists). -/
def prefixChars : List Char → List Char → Bool
  | [], _ => true
  | _ :: _, [] => false
  | a :: xs, b :: ys => (a = b : Bool) && prefixChars xs ys

/-- Model of Python's `needle in hay` substring test on character lists. -/
def containsChars : List Char → List Char → Bool
  | needle, [] => needle.isEmpty
  | needle, b :: ys => prefixChars needle (b :: ys) || containsChars needle ys

/-- Model of Python's `needle in hay` substring test on strings. -/
def containsStr (needle hay : String) : Bool :=
  containsChars needle.data hay.data

/-- Model of Python's `str.lower()` (the source only matches ASCII-cased
patterns, so ASCII lowering is the relevant behaviour). -/
def lowerStr (s : String) : String :=
  ⟨s.data.map Char.toLower⟩

/-- Model of Python's `str.strip()`: drop whitespace on both ends. -/
def stripStr (s : String) : String :=
  ⟨((s.data.dropWhile Char.isWhitespace).reverse.dropWhile Char.isWhitespace).reverse⟩

/-- Model of Python's `int(x)` on a float: truncation toward zero. -/
def pyTrunc (q : ℚ) : ℤ :=
  if 0 ≤ q then ⌊q⌋ else ⌈q⌉

/-- Python `a or b` for an optional float `a` (None and 0.0 are falsy). -/
def orFloat (a : Option ℚ) (b : ℚ) : ℚ :=
  match a with
  | some x => if x ≠ 0 then x else b
  | none => b

/-- Python `max(a, b)` on floats (modelled on ℚ). -/
def pyMax (a b : ℚ) : ℚ :=
  if a < b then b else a

/-- Python `max(a, b)` on ints. -/
def pyMaxI (a b : ℤ) : ℤ :=
  if a < b then b else a

theorem pyMax_left_le (a b : ℚ) : a ≤ pyMax a b := by
  unfold pyMax
  split
  · linarith
  · linarith

theorem pyMaxI_left_le (a b : ℤ) : a ≤ pyMaxI a b := by
  unfold pyMaxI
  split <;> omega

theorem prefixChars_iff (n h : List Char) :
    prefixChars n h = true ↔ ∃ t, h = n ++ t := by
  induction n generalizing h with
  | nil =>
    simp [prefixChars]
  | cons a xs ih =>
    cases h with
    | nil =>
      simp [prefixChars]
    | cons b ys =>
      simp only [prefixChars, Bool.and_eq_true, decide_eq_true_eq, ih]
      constructor
      · rintro ⟨rfl, t, rfl⟩
        exact ⟨t, rfl⟩
      · rintro ⟨t, ht⟩
        injection ht with h1 h2
        exact ⟨h1.symm, t, h2⟩

theorem containsChars_iff (n h : List Char) :
    containsChars n h = true ↔ ∃ s t, h = s ++ n ++ t := by
  induction h with
  | nil =>
    simp only [containsChars, List.isEmpty_iff]
    constructor
    · rintro rfl
      exact ⟨[], [], rfl⟩
    · rintro ⟨s, t, ht⟩
      rcases List.append_eq_nil.mp ht.symm with ⟨h1, h2⟩
      exact (List.append_eq_nil.mp h1).2
  | cons b ys ih =>
    simp only [containsChars, Bool.or_eq_true, prefixChars_iff, ih]
    constructor
    · rintro (⟨t, ht⟩ | ⟨s, t, ht⟩)
      · exact ⟨[], t, by simpa using ht⟩
      · exact ⟨b :: s, t, by simp [ht]⟩
    · rintro ⟨s, t, ht⟩
      cases s with
      | nil =>
        exact Or.inl ⟨t, by simpa using ht⟩
      | cons c cs =>
        injection ht with h1 h2
        exact Or.inr ⟨cs, t, h2⟩

/-! ## Filter-chain builder (`build_ffmpeg_command`, ffmpeg_utils.py 23-170)

The `-vf` chain is modelled as a list of structured stages (one
constructor per filter the source can append), and the audio codec
choice as `AudioMode`.  The numeric clamping applied when formatting the
`eq=` stage is carried on the `eq` constructor exactly as the source
computes it. -/

/-- Color metadata as returned by `probe_source_colorspace` (each field
nullable). -/
structure SourceColors where
  color_primaries : Option String
  color_transfer : Option String
  color_space : Option String
deriving DecidableEq, Repr

/-- Python `(d.get(k) or "").lower()` on an optional field. -/
def lowerOrEmpty (o : Option String) : String :=
  lowerStr (o.getD "")

/-- Extraction of `prim` in `build_ffmpeg_command` (line 74). -/
def primOf (source_colors : Option SourceColors) : String :=
  match source_colors with
  | some c => lowerOrEmpty c.color_primaries
  | none => ""

/-- Extraction of `trc` in `build_ffmpeg_command` (line 75). -/
def trcOf (source_colors : Option SourceColors) : String :=
  match source_colors with
  | some c => lowerOrEmpty c.color_transfer
  | none => ""

/-- Extraction of `mtx` in `build_ffmpeg_command` (line 76). -/
def mtxOf (source_colors : Option SourceColors) : String :=
  match source_colors with
  | some c => lowerOrEmpty c.color_space
  | none => ""

/-- HDR classification (line 77):
`trc in ("arib-std-b67", "smpte2084") or "2020" in prim or "2020" in mtx`. -/
def is_hdr (prim trc mtx : String) : Bool :=
  (trc = "arib-std-b67" || trc = "smpte2084")
    || containsStr "2020" prim || containsStr "2020" mtx

/-- One stage of the `-vf` filter chain built by `build_ffmpeg_command`. -/
inductive VfStage
  | crop
  | zscaleIn (trc_in prim_in mtx_in : String)
  | tonemap
  | zscaleOut
  | scale (size : ℤ) (flags : String)
  | setsar
  | colorspaceConv
  | eq (saturation contrast brightness gamma : ℚ)
  | formatYuv420p
  | setparams
deriving DecidableEq, Repr

/-- Audio handling selected by `build_ffmpeg_command` (lines 164-168). -/
inductive AudioMode
  | copyAudio
  | aac192
deriving DecidableEq, Repr

/-- The components of the ffmpeg command that the verified claims are
about: the ordered `-vf` chain, the audio selection, and the quality
arguments (other fixed encoder flags do not vary with the modelled
inputs). -/
structure FfmpegCmd where
  vf : List VfStage
  audio : AudioMode
  crf : ℤ
  preset : String
deriving DecidableEq, Repr

/-- Embedding of `build_ffmpeg_command` (ffmpeg_utils.py 23-170): the
`vf_chain` construction (lines 72-111) and the audio codec selection
(lines 164-168). -/
def build_ffmpeg_command (size : ℤ) (crf : ℤ) (preset : String)
    (audio_codec : AudioMode) (source_colors : Option SourceColors)
    (apply_color_tags : Bool) (scale_flags : String)
    (compat_video_note : Bool) (enhance_saturation : Bool)
    (saturation contrast brightness gamma : ℚ)
    (force_limited_range : Bool) : FfmpegCmd :=
  let prim := primOf source_colors
  let trc := trcOf source_colors
  let mtx := mtxOf source_colors
  let hdr := is_hdr prim trc mtx
  let prim_in := if containsStr "2020" prim then "bt2020"
    else (if prim = "" then "bt709" else prim)
  let mtx_in := if containsStr "2020" mtx then "bt2020nc"
    else (if mtx = "" then "bt709" else mtx)
  let trc_in := if trc = "" then "arib-std-b67" else trc
  let chain : List VfStage :=
    [VfStage.crop]
    ++ (if hdr then
          [VfStage.zscaleIn trc_in prim_in mtx_in, VfStage.tonemap,
            VfStage.zscaleOut]
        else [])
    ++ [VfStage.scale size scale_flags, VfStage.setsar]
    ++ (if force_limited_range && !hdr then [VfStage.colorspaceConv] else [])
    ++ (if enhance_saturation then
          [VfStage.eq (pyMax 0 saturation) (pyMax 0 contrast) brightness
            (pyMax 0.1 gamma)]
        else [])
    ++ [VfStage.formatYuv420p]
    ++ (if !compat_video_note && apply_color_tags then [VfStage.setparams]
        else [])
  { vf := chain, audio := audio_codec, crf := crf, preset := preset }

theorem ite_append_right {α : Type} (b : Prop) [Decidable b]
    (l x : List α) : (if b then l ++ x else l) = l ++ (if b then x else []) := by
  split <;> simp

/-- C4: a (spec, colors) input is classified HDR exactly when the
transfer curve is one of the two recognized HDR curves or the primaries
or matrix contain "2020"; every HDR input gets the tone-map stage
strictly before the scale stage, and no non-HDR input gets a tone-map
stage. -/
theorem c4_hdr_classification_tonemap_before_scale
    (size crf : ℤ) (preset : String) (audio : AudioMode)
    (colors : Option SourceColors) (tags : Bool) (flags : String)
    (compat enhance : Bool) (sat con bri gam : ℚ) (forceLim : Bool) :
    (is_hdr (primOf colors) (trcOf colors) (mtxOf colors) = true ↔
      (trcOf colors = "arib-std-b67" ∨ trcOf colors = "smpte2084" ∨
        (∃ s t, (primOf colors).data = s ++ "2020".data ++ t) ∨
        (∃ s t, (mtxOf colors).data = s ++ "2020".data ++ t)))
    ∧ (is_hdr (primOf colors) (trcOf colors) (mtxOf colors) = true →
        ∃ l₁ l₂ l₃,
          (build_ffmpeg_command size crf preset audio colors tags flags
            compat enhance sat con bri gam forceLim).vf =
          l₁ ++ VfStage.tonemap :: (l₂ ++ VfStage.scale size flags :: l₃))
    ∧ (is_hdr (primOf colors) (trcOf colors) (mtxOf colors) = false →
        VfStage.tonemap ∉
          (build_ffmpeg_command size crf preset audio colors tags flags
            compat enhance sat con bri gam forceLim).vf) := by
  refine ⟨?_, ?_, ?_⟩
  · simp only [is_hdr, Bool.or_eq_true, decide_eq_true_eq, containsStr,
      containsChars_iff, or_assoc]
  · intro h
    refine ⟨[VfStage.crop,
      VfStage.zscaleIn (if trcOf colors = "" then "arib-std-b67" else trcOf colors)
        (if containsStr "2020" (primOf colors) then "bt2020"
          else if primOf colors = "" then "bt709" else primOf colors)
        (if containsStr "2020" (mtxOf colors) then "bt2020nc"
          else if mtxOf colors = "" then "bt709" else mtxOf colors)],
      [VfStage.zscaleOut],
      VfStage.setsar ::
        ((if enhance then
            [VfStage.eq (pyMax 0 sat) (pyMax 0 con) bri (pyMax 0.1 gam)]
          else []) ++
          (VfStage.formatYuv420p ::
            (if !compat && tags then [VfStage.setparams] else []))), ?_⟩
    simp [build_ffmpeg_command, h]
  · intro h
    simp [build_ffmpeg_command, h, List.mem_append]

/-- C8 counterexample: with cosmetic enhancement enabled and supplied
brightness −1/2, the appended eq stage carries brightness −1/2 (negative,
not clamped to non-negative), so not all four parameters are clamped. -/
theorem c8_brightness_not_clamped_cex :
    VfStage.eq 1 1 (-(1/2)) 1 ∈
      (build_ffmpeg_command 640 14 "slow" AudioMode.copyAudio none false
        "lanczos+accurate_rnd+full_chroma_int" true true 1 1 (-(1/2)) 1
        false).vf
    ∧ ¬ (0 ≤ (-(1/2) : ℚ)) := by
  constructor
  · show VfStage.eq 1 1 (-(1/2)) 1 ∈ _
    have h1 : pyMax 0 (1 : ℚ) = 1 := by unfold pyMax; norm_num
    have hg : pyMax 0.1 (1 : ℚ) = 1 := by unfold pyMax; norm_num
    simp [build_ffmpeg_command, is_hdr, primOf, trcOf, mtxOf,
      containsStr, containsChars, prefixChars, lowerOrEmpty, lowerStr,
      h1, hg]
  · norm_num

/-- C8 (amended): when cosmetic enhancement is enabled the builder
appends an eq stage whose saturation and contrast are clamped to
non-negative and whose gamma is floored at 0.1 (strictly above zero),
but whose brightness is the supplied value passed through unclamped. -/
theorem c8_eq_stage_clamping
    (size crf : ℤ) (preset : String) (audio : AudioMode)
    (colors : Option SourceColors) (tags : Bool) (flags : String)
    (compat : Bool) (sat con bri gam : ℚ) (forceLim : Bool) :
    VfStage.eq (pyMax 0 sat) (pyMax 0 con) bri (pyMax 0.1 gam) ∈
      (build_ffmpeg_command size crf preset audio colors tags flags
        compat true sat con bri gam forceLim).vf
    ∧ 0 ≤ pyMax 0 sat ∧ 0 ≤ pyMax 0 con ∧ 0 < pyMax 0.1 gam := by
  have hs : (0:ℚ) ≤ pyMax 0 sat := pyMax_left_le 0 sat
  have hc : (0:ℚ) ≤ pyMax 0 con := pyMax_left_le 0 con
  have hg : (0:ℚ) < pyMax 0.1 gam := by
    have := pyMax_left_le (0.1 : ℚ) gam
    norm_num at this ⊢
    linarith
  refine ⟨?_, hs, hc, hg⟩
  simp [build_ffmpeg_command, List.mem_append]

/-! ## Transcode executor (`convert_to_square_video_note`,
ffmpeg_utils.py 202-328)

Subprocess runs are modelled by an outcome oracle (`ProcOut` per run);
the executor's control flow — copy-audio attempt, single AAC retry on
nonzero exit, and the size-fit pass — is translated from the source.
The list of attempts actually launched is returned alongside the
result so that retry behaviour can be stated. -/

/-- Outcome of one `subprocess.run` of ffmpeg: wall-clock timeout, or an
exit with a return code and captured stderr. -/
inductive ProcOut
  | timeoutExpired
  | exited (returncode : ℤ) (stderr : String)
deriving DecidableEq, Repr

/-- One external ffmpeg invocation that the executor launched. -/
inductive ConvAttempt
  /-- A full encode built by `build_ffmpeg_command`, run with the
  configured timeout. -/
  | encode (cmd : FfmpegCmd) (timeoutS : ℤ)
  /-- The size-fix re-encode (lines 301-319): capped video bitrate `v_k`
  kbit/s, fixed audio bitrate kbit/s, capped crf, same timeout. -/
  | sizefix (v_k : ℤ) (audio_k : ℤ) (crf : ℤ) (timeoutS : ℤ)
deriving DecidableEq, Repr

/-- The `RuntimeError`s `convert_to_square_video_note` can raise,
with the message payloads that matter to the claims. -/
inductive ConvError
  | encodeTimeout (limitS : ℤ)
  | encodeTimeoutFallback (limitS : ℤ)
  | encodeFailed (stderr : String)
  | sizefixTimeout (limitS : ℤ)
  | sizefixFailed (stderr : String)
deriving DecidableEq, Repr

/-- Inputs and external outcomes for one `convert_to_square_video_note`
call: configuration read from the environment, and the oracle outcomes
of the subprocess runs and probes it may perform. -/
structure ConvEnv where
  size : ℤ
  crf : ℤ
  preset : String
  source_colors : Option SourceColors
  enhance : Bool
  sat : ℚ
  con : ℚ
  bri : ℚ
  gam : ℚ
  ffmpeg_timeout_s : ℤ
  firstRun : ProcOut
  secondRun : ProcOut
  size_limit_mb : ℚ
  out_size : ℤ
  dur_out : Option ℚ
  dur_in : Option ℚ
  sizefixRun : ProcOut
deriving DecidableEq, Repr

/-- The first (copy-audio) command built at lines 223-239. -/
def firstCmd (env : ConvEnv) : FfmpegCmd :=
  build_ffmpeg_command env.size env.crf env.preset AudioMode.copyAudio
    env.source_colors false "lanczos+accurate_rnd+full_chroma_int" true
    env.enhance env.sat env.con env.bri env.gam false

/-- The AAC fallback command built at lines 251-267: identical except
`audio_codec="aac"`. -/
def fallbackCmd (env : ConvEnv) : FfmpegCmd :=
  build_ffmpeg_command env.size env.crf env.preset AudioMode.aac192
    env.source_colors false "lanczos+accurate_rnd+full_chroma_int" true
    env.enhance env.sat env.con env.bri env.gam false

/-- The size-fit pass (lines 276-328): runs only when a positive byte
ceiling is configured and the artifact strictly exceeds it; recomputes
the video bitrate from the probed duration. -/
def size_fit_pass (env : ConvEnv) (done : List ConvAttempt) :
    Except ConvError Unit × List ConvAttempt :=
  if env.size_limit_mb ≤ 0 then (Except.ok (), done)
  else
    let size_limit_bytes : ℤ := pyTrunc (env.size_limit_mb * 1024 * 1024)
    if size_limit_bytes < env.out_size then
      let duration : ℚ := orFloat env.dur_out (orFloat env.dur_in 0)
      let target_bits_total : ℤ :=
        pyTrunc ((size_limit_bytes * 8 : ℤ) * (0.95 : ℚ))
      let audio_k : ℤ := 96
      let v_k : ℤ :=
        if 0 < duration then
          pyMaxI 300
            (pyTrunc ((target_bits_total : ℚ) / duration / 1000) - audio_k)
        else 1800
      let att := ConvAttempt.sizefix v_k audio_k (pyMaxI env.crf 22)
        env.ffmpeg_timeout_s
      match env.sizefixRun with
      | ProcOut.timeoutExpired =>
        (Except.error (ConvError.sizefixTimeout env.ffmpeg_timeout_s),
          done ++ [att])
      | ProcOut.exited rc st =>
        if rc ≠ 0 then
          (Except.error (ConvError.sizefixFailed (stripStr st)),
            done ++ [att])
        else (Except.ok (), done ++ [att])
    else (Except.ok (), done)

/-- Embedding of `convert_to_square_video_note` (ffmpeg_utils.py
202-328): copy-audio attempt, AAC retry on nonzero exit, then the
size-fit pass. -/
def convert_to_square_video_note (env : ConvEnv) :
    Except ConvError Unit × List ConvAttempt :=
  let att1 := ConvAttempt.encode (firstCmd env) env.ffmpeg_timeout_s
  match env.firstRun with
  | ProcOut.timeoutExpired =>
    (Except.error (ConvError.encodeTimeout env.ffmpeg_timeout_s), [att1])
  | ProcOut.exited rc _ =>
    if rc ≠ 0 then
      let att2 := ConvAttempt.encode (fallbackCmd env) env.ffmpeg_timeout_s
      match env.secondRun with
      | ProcOut.timeoutExpired =>
        (Except.error (ConvError.encodeTimeoutFallback env.ffmpeg_timeout_s),
          [att1, att2])
      | ProcOut.exited rc2 st2 =>
        if rc2 ≠ 0 then
          (Except.error (ConvError.encodeFailed (stripStr st2)),
            [att1, att2])
        else size_fit_pass env [att1, att2]
    else size_fit_pass env [att1]

/-- Number of full-encode launches in an attempt list. -/
def countEncodes : List ConvAttempt → ℕ
  | [] => 0
  | ConvAttempt.encode _ _ :: t => countEncodes t + 1
  | ConvAttempt.sizefix _ _ _ _ :: t => countEncodes t

/-- Number of size-fix launches in an attempt list. -/
def countSizefix : List ConvAttempt → ℕ
  | [] => 0
  | ConvAttempt.encode _ _ :: t => countSizefix t
  | ConvAttempt.sizefix _ _ _ _ :: t => countSizefix t + 1

theorem countEncodes_append (a b : List ConvAttempt) :
    countEncodes (a ++ b) = countEncodes a + countEncodes b := by
  induction a with
  | nil => simp [countEncodes]
  | cons x t ih => cases x <;> simp [countEncodes, ih] <;> omega

theorem countSizefix_append (a b : List ConvAttempt) :
    countSizefix (a ++ b) = countSizefix a + countSizefix b := by
  induction a with
  | nil => simp [countSizefix]
  | cons x t ih => cases x <;> simp [countSizefix, ih] <;> omega

theorem size_fit_pass_trace (env : ConvEnv) (done : List ConvAttempt) :
    ∃ s, (size_fit_pass env done).2 = done ++ s ∧ countEncodes s = 0 ∧
      countSizefix s ≤ 1 := by
  simp only [size_fit_pass]
  split
  · exact ⟨[], by simp, rfl, by simp [countSizefix]⟩
  split
  · split
    · exact ⟨[ConvAttempt.sizefix _ _ _ _], rfl, rfl, by simp [countSizefix]⟩
    · split
      · exact ⟨[ConvAttempt.sizefix _ _ _ _], rfl, rfl,
          by simp [countSizefix]⟩
      · exact ⟨[ConvAttempt.sizefix _ _ _ _], rfl, rfl,
          by simp [countSizefix]⟩
  · exact ⟨[], by simp, rfl, by simp [countSizefix]⟩

/-- C5: whenever the size-fit pass triggers (positive byte ceiling,
artifact strictly over it), a single size-fix re-encode is launched with
video bitrate `max(300, trunc(trunc(0.95 · ceilingBytes · 8) / duration
/ 1000) − 96)` kbit/s when the probed duration is positive, the fixed
fallback 1800 kbit/s otherwise, and in every case the bitrate is at
least 300 kbit/s. -/
theorem c5_sizefix_trigger_and_bitrate (env : ConvEnv) (st0 : String)
    (h1 : env.firstRun = ProcOut.exited 0 st0)
    (h2 : 0 < env.size_limit_mb)
    (h3 : pyTrunc (env.size_limit_mb * 1024 * 1024) < env.out_size) :
    ∃ v_k : ℤ,
      (convert_to_square_video_note env).2 =
        [ConvAttempt.encode (firstCmd env) env.ffmpeg_timeout_s,
          ConvAttempt.sizefix v_k 96 (pyMaxI env.crf 22)
            env.ffmpeg_timeout_s]
      ∧ (0 < orFloat env.dur_out (orFloat env.dur_in 0) →
          v_k = pyMaxI 300
            (pyTrunc
              ((pyTrunc ((pyTrunc (env.size_limit_mb * 1024 * 1024) * 8 : ℤ)
                  * (0.95 : ℚ)) : ℚ)
                / orFloat env.dur_out (orFloat env.dur_in 0) / 1000) - 96))
      ∧ (¬ 0 < orFloat env.dur_out (orFloat env.dur_in 0) → v_k = 1800)
      ∧ 300 ≤ v_k := by
  have hnle : ¬ env.size_limit_mb ≤ 0 := not_le.mpr h2
  refine ⟨if 0 < orFloat env.dur_out (orFloat env.dur_in 0) then
      pyMaxI 300
        (pyTrunc
          ((pyTrunc ((pyTrunc (env.size_limit_mb * 1024 * 1024) * 8 : ℤ)
              * (0.95 : ℚ)) : ℚ)
            / orFloat env.dur_out (orFloat env.dur_in 0) / 1000) - 96)
    else 1800, ?_, ?_, ?_, ?_⟩
  · unfold convert_to_square_video_note
    rw [h1]
    dsimp only
    rw [if_neg (show ¬ (0:ℤ) ≠ 0 from fun h => h rfl)]
    simp only [size_fit_pass]
    rw [if_neg hnle, if_pos h3]
    split
    · rfl
    · split
      · rfl
      · rfl
  · intro h
    rw [if_pos h]
  · intro h
    rw [if_neg h]
  · split
    · exact pyMaxI_left_le 300 _
    · omega

/-- C5 witness instantiation: ceiling 12 MiB, artifact exactly 1 byte
over it, duration 60 s: the size-fix triggers and recomputes
`max(300, 95630131 / 60 / 1000 − 96) = 1497` kbit/s. -/
def c5Env : ConvEnv where
  size := 640
  crf := 14
  preset := "slow"
  source_colors := none
  enhance := false
  sat := 1.12
  con := 1.02
  bri := 0
  gam := 1
  ffmpeg_timeout_s := 600
  firstRun := ProcOut.exited 0 ""
  secondRun := ProcOut.exited 0 ""
  size_limit_mb := 12
  out_size := 12582913
  dur_out := some 60
  dur_in := none
  sizefixRun := ProcOut.exited 0 ""

/-- C7: a copy-audio attempt that exits nonzero is followed by exactly
one retry, built with AAC audio and otherwise identical, under the same
timeout; if the retry also exits nonzero the executor surfaces an encode
failure carrying the captured (stripped) stderr; a timeout of the first
attempt is not retried; and no run ever launches more than two encodes
or more than one size-fix. -/
theorem c7_audio_fallback_retry_once (env : ConvEnv) :
    (env.firstRun = ProcOut.timeoutExpired →
      convert_to_square_video_note env =
        (Except.error (ConvError.encodeTimeout env.ffmpeg_timeout_s),
          [ConvAttempt.encode (firstCmd env) env.ffmpeg_timeout_s]))
    ∧ (∀ rc st, env.firstRun = ProcOut.exited rc st → rc ≠ 0 →
        (∃ rest, (convert_to_square_video_note env).2 =
          [ConvAttempt.encode (firstCmd env) env.ffmpeg_timeout_s,
            ConvAttempt.encode (fallbackCmd env) env.ffmpeg_timeout_s]
            ++ rest ∧ countEncodes rest = 0)
        ∧ (fallbackCmd env).audio = AudioMode.aac192
        ∧ (firstCmd env).audio = AudioMode.copyAudio
        ∧ (fallbackCmd env).vf = (firstCmd env).vf
        ∧ (fallbackCmd env).crf = (firstCmd env).crf
        ∧ (fallbackCmd env).preset = (firstCmd env).preset)
    ∧ (∀ rc st rc2 st2, env.firstRun = ProcOut.exited rc st → rc ≠ 0 →
        env.secondRun = ProcOut.exited rc2 st2 → rc2 ≠ 0 →
        convert_to_square_video_note env =
          (Except.error (ConvError.encodeFailed (stripStr st2)),
            [ConvAttempt.encode (firstCmd env) env.ffmpeg_timeout_s,
              ConvAttempt.encode (fallbackCmd env) env.ffmpeg_timeout_s]))
    ∧ (∀ st, env.firstRun = ProcOut.exited 0 st →
        countEncodes (convert_to_square_video_note env).2 = 1)
    ∧ countEncodes (convert_to_square_video_note env).2 ≤ 2
    ∧ countSizefix (convert_to_square_video_note env).2 ≤ 1 := by
  have hfb : (fallbackCmd env).audio = AudioMode.aac192 ∧
      (firstCmd env).audio = AudioMode.copyAudio ∧
      (fallbackCmd env).vf = (firstCmd env).vf ∧
      (fallbackCmd env).crf = (firstCmd env).crf ∧
      (fallbackCmd env).preset = (firstCmd env).preset := by
    refine ⟨rfl, rfl, ?_, rfl, rfl⟩
    simp [fallbackCmd, firstCmd, build_ffmpeg_command]
  refine ⟨?_, ?_, ?_, ?_, ?_, ?_⟩
  · intro h
    unfold convert_to_square_video_note
    rw [h]
  · intro rc st h hrc
    refine ⟨?_, hfb⟩
    unfold convert_to_square_video_note
    rw [h]
    dsimp only
    rw [if_pos hrc]
    rcases hs : env.secondRun with _ | ⟨rc2, st2⟩
    · exact ⟨[], by simp, rfl⟩
    · dsimp only
      split
      · exact ⟨[], by simp, rfl⟩
      · rcases size_fit_pass_trace env
          [ConvAttempt.encode (firstCmd env) env.ffmpeg_timeout_s,
            ConvAttempt.encode (fallbackCmd env) env.ffmpeg_timeout_s]
          with ⟨s, hseq, hce, _⟩
        exact ⟨s, by rw [hseq], hce⟩
  · intro rc st rc2 st2 h hrc h2 hrc2
    unfold convert_to_square_video_note
    rw [h]
    dsimp only
    rw [if_pos hrc, h2]
    dsimp only
    rw [if_pos hrc2]
  · intro st h
    unfold convert_to_square_video_note
    rw [h]
    dsimp only
    rw [if_neg (show ¬ (0:ℤ) ≠ 0 from fun hx => hx rfl)]
    rcases size_fit_pass_trace env
      [ConvAttempt.encode (firstCmd env) env.ffmpeg_timeout_s]
      with ⟨s, hseq, hce, _⟩
    rw [hseq, countEncodes_append, hce]
    rfl
  · unfold convert_to_square_video_note
    rcases h : env.firstRun with _ | ⟨rc, st⟩
    · simp [countEncodes]
    · dsimp only
      split
      · rcases hs : env.secondRun with _ | ⟨rc2, st2⟩
        · simp [countEncodes]
        · dsimp only
          split
          · simp [countEncodes]
          · rcases size_fit_pass_trace env
              [ConvAttempt.encode (firstCmd env) env.ffmpeg_timeout_s,
                ConvAttempt.encode (fallbackCmd env) env.ffmpeg_timeout_s]
              with ⟨s, hseq, hce, _⟩
            rw [hseq, countEncodes_append, hce]
            simp [countEncodes]
      · rcases size_fit_pass_trace env
          [ConvAttempt.encode (firstCmd env) env.ffmpeg_timeout_s]
          with ⟨s, hseq, hce, _⟩
        rw [hseq, countEncodes_append, hce]
        simp [countEncodes]
  · unfold convert_to_square_video_note
    rcases h : env.firstRun with _ | ⟨rc, st⟩
    · simp [countSizefix]
    · dsimp only
      split
      · rcases hs : env.secondRun with _ | ⟨rc2, st2⟩
        · simp [countSizefix]
        · dsimp only
          split
          · simp [countSizefix]
          · rcases size_fit_pass_trace env
              [ConvAttempt.encode (firstCmd env) env.ffmpeg_timeout_s,
                ConvAttempt.encode (fallbackCmd env) env.ffmpeg_timeout_s]
              with ⟨s, hseq, _, hcs⟩
            rw [hseq, countSizefix_append]
            simp [countSizefix]
            omega
      · rcases size_fit_pass_trace env
          [ConvAttempt.encode (firstCmd env) env.ffmpeg_timeout_s]
          with ⟨s, hseq, _, hcs⟩
        rw [hseq, countSizefix_append]
        simp [countSizefix]
        omega

/-- C7 witness: with a first attempt exiting 1 and a retry exiting 1
with stderr " boom ", the executor retries exactly once and surfaces the
stripped stderr. -/
def c7Env : ConvEnv where
  size := 640
  crf := 14
  preset := "slow"
  source_colors := none
  enhance := false
  sat := 1.12
  con := 1.02
  bri := 0
  gam := 1
  ffmpeg_timeout_s := 600
  firstRun := ProcOut.exited 1 "copy err"
  secondRun := ProcOut.exited 1 " boom "
  size_limit_mb := 12
  out_size := 0
  dur_out := none
  dur_in := none
  sizefixRun := ProcOut.exited 0 ""

theorem c7_audio_fallback_retry_once_witness :
    convert_to_square_video_note c7Env =
      (Except.error (ConvError.encodeFailed (stripStr " boom ")),
        [ConvAttempt.encode (firstCmd c7Env) c7Env.ffmpeg_timeout_s,
          ConvAttempt.encode (fallbackCmd c7Env) c7Env.ffmpeg_timeout_s]) :=
  (c7_audio_fallback_retry_once c7Env).2.2.1 1 "copy err" 1 " boom " rfl
    (by norm_num) rfl (by norm_num)

theorem c5_sizefix_trigger_and_bitrate_witness :
    c5Env.firstRun = ProcOut.exited 0 "" ∧ (0 : ℚ) < c5Env.size_limit_mb ∧
      pyTrunc (c5Env.size_limit_mb * 1024 * 1024) < c5Env.out_size ∧
      ∃ v_k : ℤ,
        (convert_to_square_video_note c5Env).2 =
          [ConvAttempt.encode (firstCmd c5Env) c5Env.ffmpeg_timeout_s,
            ConvAttempt.sizefix v_k 96 (pyMaxI c5Env.crf 22)
              c5Env.ffmpeg_timeout_s]
        ∧ (0 < orFloat c5Env.dur_out (orFloat c5Env.dur_in 0) →
            v_k = pyMaxI 300
              (pyTrunc
                ((pyTrunc ((pyTrunc (c5Env.size_limit_mb * 1024 * 1024) * 8 : ℤ)
                    * (0.95 : ℚ)) : ℚ)
                  / orFloat c5Env.dur_out (orFloat c5Env.dur_in 0) / 1000) - 96))
        ∧ (¬ 0 < orFloat c5Env.dur_out (orFloat c5Env.dur_in 0) → v_k = 1800)
        ∧ 300 ≤ v_k :=
  ⟨rfl, by norm_num [c5Env], by norm_num [c5Env, pyTrunc],
    c5_sizefix_trigger_and_bitrate c5Env "" rfl (by norm_num [c5Env])
      (by norm_num [c5Env, pyTrunc])⟩

/-! ## Counters collaborator (`analytics.py`)

The record functions wrap their SQLite work in `try/finally` with no
`except` clause, so the model reproduces Python's try/finally semantics:
an exception from the body is re-raised after the finally block runs (a
finally-block exception replaces it), and a failure of `_get_conn`
leaves `conn` unbound so the `finally: conn.close()` itself raises. -/

/-- The three effectful steps of one record call: opening the
connection (`_get_conn`), executing/committing the SQL, and
`conn.close()` in the finally block. -/
structure DbOps where
  connect : Except String Unit
  execCommit : Except String Unit
  closeConn : Except String Unit
deriving Repr

/-- Embedding of `record_conversion` (analytics.py 77-94); `record_event`,
`record_error` and `record_metric` have the same try/finally shape. -/
def record_conversion (db : DbOps) : Except String Unit :=
  match db.connect with
  | Except.error _ =>
    Except.error "UnboundLocalError: local variable conn referenced before assignment"
  | Except.ok () =>
    match db.closeConn with
    | Except.error f => Except.error f
    | Except.ok () => db.execCommit

/-! ## Delivery negotiator (`_convert_and_send`, handlers.py 259-368)

Telegram sends are modelled by optional error texts (`none` = the send
succeeded); the user-visible messages and send attempts are recorded in
an action trace, and an uncaught exception is returned as
`Except.error`. -/

/-- User-visible messages and send attempts of `_convert_and_send`, in
program order. -/
inductive Act
  | answerDurationLimit
  | answerPromise
  | sendNoteAttempt
  | answerCeiling
  | answerForbiddenExplain
  | sendVideoAttempt
  | answerDocFallback
  | sendDocumentAttempt
deriving DecidableEq, Repr

/-- Classification of a note-send error text as the "too long" class
(handlers.py line 322):
`"too long" in e or "longer than" in e or ("video_note" in e and "long" in e)`. -/
def too_long_class (e : String) : Bool :=
  containsStr "too long" e || containsStr "longer than" e
    || (containsStr "video_note" e && containsStr "long" e)

/-- Classification of a note-send error text as the "forbidden
voice/video" class (handlers.py lines 328-330). -/
def forbidden_note_class (e : String) : Bool :=
  (containsStr "forbidden" e && (containsStr "voice" e || containsStr "video" e))
    || containsStr "voice messages forbidden" e
    || containsStr "video messages forbidden" e

/-- Classification of a video-send error as forbidden-video
(handlers.py line 349): `"forbidden" in e2 and "video" in e2`. -/
def forbidden_video_class (e : String) : Bool :=
  containsStr "forbidden" e && containsStr "video" e

/-- Outcomes of the metrics tail of `_convert_and_send` (lines 358-368):
`record_conversion`, `record_metric("processing_ms", ...)`, the guarded
`stat()` call, and `record_metric("output_size_bytes", ...)`. -/
structure MetricsEnv where
  recordConversionRun : Except String Unit
  recordMetricMs : Except String Unit
  statSize : Option ℤ
  recordMetricBytes : Except String Unit
deriving Repr

/-- External outcomes consumed by one `_convert_and_send` call. -/
structure CsEnv where
  probeDur : Option ℚ
  convert : Except String Unit
  canSendVn : Bool
  noteSend : Option String
  videoSend : Option String
  docSend : Option String
  metrics : MetricsEnv
deriving Repr

/-- The metrics tail (lines 358-368): runs only when the message has a
sender; the `stat` call alone is guarded by try/except (missing file
counts as size 0); any analytics exception propagates. -/
def metricsTail (hasFrom : Bool) (m : MetricsEnv) : Except String Unit :=
  if hasFrom then
    match m.recordConversionRun with
    | Except.error e => Except.error e
    | Except.ok () =>
      match m.recordMetricMs with
      | Except.error e => Except.error e
      | Except.ok () =>
        let out_size : ℤ := match m.statSize with
          | some n => n
          | none => 0
        if out_size ≠ 0 then m.recordMetricBytes else Except.ok ()
  else Except.ok ()

/-- Embedding of `_convert_and_send` (handlers.py 259-368): duration
re-probe and limit check, conversion, the note→video→document delivery
ladder with text-classified fallbacks, then the metrics tail.  Returns
the action trace and the exception that propagates, if any. -/
def convert_and_send (max_duration_s : ℤ) (hasFrom : Bool)
    (duration0 : Option ℤ) (env : CsEnv) :
    List Act × Except String Unit :=
  let duration : Option ℤ :=
    match duration0 with
    | none =>
      match env.probeDur with
      | some d => if d ≠ 0 then some (pyTrunc d) else none
      | none => none
    | some d => some d
  match duration with
  | some d =>
    if max_duration_s < d then ([Act.answerDurationLimit], Except.ok ())
    else convert_and_send_after_duration max_duration_s hasFrom env
  | none => convert_and_send_after_duration max_duration_s hasFrom env
where
  /-- The part of `_convert_and_send` after the duration gate
  (handlers.py 286-368). -/
  convert_and_send_after_duration (_max_duration_s : ℤ) (hasFrom : Bool)
      (env : CsEnv) : List Act × Except String Unit :=
    match env.convert with
    | Except.error e => ([], Except.error e)
    | Except.ok () =>
      let noteStep : List Act × Bool × Bool :=
        if env.canSendVn then
          match env.noteSend with
          | none => ([Act.sendNoteAttempt], true, false)
          | some err =>
            let e := lowerStr err
            if too_long_class e then
              ([Act.sendNoteAttempt, Act.answerCeiling], false, false)
            else if forbidden_note_class e then
              ([Act.sendNoteAttempt], false, true)
            else ([Act.sendNoteAttempt], false, false)
        else ([], false, false)
      let noteActs := noteStep.1
      let sent_as_note := noteStep.2.1
      let fallback_reason_forbidden := noteStep.2.2
      if sent_as_note then
        (Act.answerPromise :: noteActs, metricsTail hasFrom env.metrics)
      else
        let explain :=
          if (!env.canSendVn) || fallback_reason_forbidden then
            [Act.answerForbiddenExplain]
          else []
        match env.videoSend with
        | none =>
          (Act.answerPromise :: noteActs ++ explain ++ [Act.sendVideoAttempt],
            metricsTail hasFrom env.metrics)
        | some err2 =>
          let e2 := lowerStr err2
          if forbidden_video_class e2 then
            match env.docSend with
            | none =>
              (Act.answerPromise :: noteActs ++ explain ++
                [Act.sendVideoAttempt, Act.answerDocFallback,
                  Act.sendDocumentAttempt],
                metricsTail hasFrom env.metrics)
            | some derr =>
              (Act.answerPromise :: noteActs ++ explain ++
                [Act.sendVideoAttempt, Act.answerDocFallback,
                  Act.sendDocumentAttempt],
                Except.error derr)
          else
            (Act.answerPromise :: noteActs ++ explain ++
              [Act.sendVideoAttempt],
              Except.error err2)

/-- The send attempts the video-fallback branch performs (a proof
helper: the shape of the action suffix after `sendVideoAttempt` is
reached with no explanation message). -/
def convert_and_send_tail (env : CsEnv) : List Act :=
  match env.videoSend with
  | none => [Act.sendVideoAttempt]
  | some err2 =>
    if forbidden_video_class (lowerStr err2) then
      [Act.sendVideoAttempt, Act.answerDocFallback, Act.sendDocumentAttempt]
    else [Act.sendVideoAttempt]

/-- Benign metrics outcomes (every analytics call succeeds). -/
def metricsOk : MetricsEnv where
  recordConversionRun := Except.ok ()
  recordMetricMs := Except.ok ()
  statSize := none
  recordMetricBytes := Except.ok ()

/-- C1 counterexample environment: the note send fails with a "too
long"-classified error text and the video send would succeed. -/
def c1Env : CsEnv where
  probeDur := none
  convert := Except.ok ()
  canSendVn := true
  noteSend := some "Bad Request: video is too long"
  videoSend := none
  docSend := none
  metrics := metricsOk

/-- C1 counterexample: on a "too long"-classified note-send failure the
handler reports the duration ceiling and then still attempts the video
send — delivery is not terminal, contradicting the claim that no
video-send attempt is made. -/
theorem c1_too_long_still_sends_video_cex :
    convert_and_send 60 false (some 10) c1Env =
      ([Act.answerPromise, Act.sendNoteAttempt, Act.answerCeiling,
        Act.sendVideoAttempt], Except.ok ())
    ∧ Act.sendVideoAttempt ∈ (convert_and_send 60 false (some 10) c1Env).1
    ∧ too_long_class
        (lowerStr "Bad Request: video is too long") = true := by
  refine ⟨rfl, ?_, rfl⟩
  rw [show (convert_and_send 60 false (some 10) c1Env).1 =
    [Act.answerPromise, Act.sendNoteAttempt, Act.answerCeiling,
      Act.sendVideoAttempt] from rfl]
  simp

/-- C1 (amended): a note-send failure whose (lowered) error text is in
the "too long" class reports the duration ceiling to the user and then
falls through to the video fallback: a video-send attempt is made, with
no "forbidden" explanation message. -/
theorem c1_too_long_reports_ceiling_then_video_fallback
    (maxD d : ℤ) (hasFrom : Bool) (env : CsEnv) (err : String)
    (hv : env.canSendVn = true) (hn : env.noteSend = some err)
    (htl : too_long_class (lowerStr err) = true)
    (hc : env.convert = Except.ok ()) (hd : ¬ maxD < d) :
    Act.answerCeiling ∈ (convert_and_send maxD hasFrom (some d) env).1
    ∧ Act.sendVideoAttempt ∈ (convert_and_send maxD hasFrom (some d) env).1
    ∧ Act.answerForbiddenExplain ∉
        (convert_and_send maxD hasFrom (some d) env).1 := by
  rcases env with ⟨pd, cv, csv, ns, vs, ds, ms⟩
  dsimp only at hv hn hc
  subst hv
  subst hn
  subst hc
  simp only [convert_and_send, convert_and_send.convert_and_send_after_duration,
    if_neg hd, htl, if_true, Bool.not_true, Bool.false_or, Bool.or_self,
    if_false]
  rcases vs with _ | err2
  · simp
  · dsimp only
    repeat' split
    all_goals simp_all

theorem c1_too_long_reports_ceiling_then_video_fallback_witness :
    Act.answerCeiling ∈ (convert_and_send 60 false (some 10) c1Env).1
    ∧ Act.sendVideoAttempt ∈ (convert_and_send 60 false (some 10) c1Env).1
    ∧ Act.answerForbiddenExplain ∉
        (convert_and_send 60 false (some 10) c1Env).1 :=
  c1_too_long_reports_ceiling_then_video_fallback 60 10 false c1Env
    "Bad Request: video is too long" rfl rfl rfl rfl (by norm_num)

/-- HDR color metadata (PQ transfer, BT.2020 primaries) used to witness
the tone-map placement. -/
def hdrColors : Option SourceColors :=
  some ⟨some "bt2020", some "smpte2084", some "bt2020nc"⟩

theorem c4_hdr_classification_tonemap_before_scale_witness :
    (∃ l₁ l₂ l₃,
      (build_ffmpeg_command 640 14 "slow" AudioMode.copyAudio hdrColors
        false "lanczos+accurate_rnd+full_chroma_int" true false 1 1 0 1
        false).vf =
      l₁ ++ VfStage.tonemap :: (l₂ ++
        VfStage.scale 640 "lanczos+accurate_rnd+full_chroma_int" :: l₃))
    ∧ VfStage.tonemap ∉
        (build_ffmpeg_command 640 14 "slow" AudioMode.copyAudio none
          false "lanczos+accurate_rnd+full_chroma_int" true false 1 1 0 1
          false).vf :=
  ⟨(c4_hdr_classification_tonemap_before_scale 640 14 "slow"
      AudioMode.copyAudio hdrColors false
      "lanczos+accurate_rnd+full_chroma_int" true false 1 1 0 1
      false).2.1 rfl,
    (c4_hdr_classification_tonemap_before_scale 640 14 "slow"
      AudioMode.copyAudio none false
      "lanczos+accurate_rnd+full_chroma_int" true false 1 1 0 1
      false).2.2 rfl⟩

/-- C3 counterexample environment: conversion and note delivery succeed,
but `record_conversion`'s SQL step raises. -/
def c3Env : CsEnv where
  probeDur := none
  convert := Except.ok ()
  canSendVn := true
  noteSend := none
  videoSend := none
  docSend := none
  metrics :=
    { recordConversionRun := Except.error "database is locked"
      recordMetricMs := Except.ok ()
      statSize := none
      recordMetricBytes := Except.ok () }

/-- C3 counterexample: an error raised inside the counters collaborator
is not swallowed — `record_conversion` re-raises it (try/finally has no
except clause), and in `_convert_and_send` it propagates out of the job
even though the note was already delivered successfully. -/
theorem c3_metrics_error_propagates_cex :
    record_conversion
      { connect := Except.ok ()
        execCommit := Except.error "database is locked"
        closeConn := Except.ok () } = Except.error "database is locked"
    ∧ convert_and_send 60 true (some 10) c3Env =
        ([Act.answerPromise, Act.sendNoteAttempt],
          Except.error "database is locked")
    ∧ (convert_and_send 60 true (some 10) c3Env).2 ≠ Except.ok () := by
  refine ⟨rfl, rfl, ?_⟩
  intro h
  rw [show (convert_and_send 60 true (some 10) c3Env).2 =
    Except.error "database is locked" from rfl] at h
  exact Except.noConfusion h

/-- C3 (amended): collaborator errors propagate.  `record_conversion`
re-raises any failure of its body (its try/finally has no except
clause), and in `_convert_and_send` a failing `record_conversion` after
a successful note delivery propagates out of the call as the job's
exception. -/
theorem c3_collaborator_errors_propagate
    (db : DbOps) (e : String) (maxD d : ℤ) (env : CsEnv)
    (h1 : db.connect = Except.ok ()) (h2 : db.closeConn = Except.ok ())
    (h3 : db.execCommit = Except.error e)
    (hv : env.canSendVn = true) (hn : env.noteSend = none)
    (hc : env.convert = Except.ok ())
    (hm : env.metrics.recordConversionRun = Except.error e)
    (hd : ¬ maxD < d) :
    record_conversion db = Except.error e
    ∧ convert_and_send maxD true (some d) env =
        ([Act.answerPromise, Act.sendNoteAttempt], Except.error e) := by
  constructor
  · unfold record_conversion
    rw [h1, h2, h3]
  · rcases env with ⟨pd, cv, csv, ns, vs, ds, ms⟩
    dsimp only at hv hn hc hm
    subst hv
    subst hn
    subst hc
    simp only [convert_and_send, convert_and_send.convert_and_send_after_duration,
      if_neg hd, if_true]
    unfold metricsTail
    rw [hm]
    rfl

theorem c3_collaborator_errors_propagate_witness :
    record_conversion
      { connect := Except.ok ()
        execCommit := Except.error "database is locked"
        closeConn := Except.ok () } = Except.error "database is locked"
    ∧ convert_and_send 60 true (some 10) c3Env =
        ([Act.answerPromise, Act.sendNoteAttempt],
          Except.error "database is locked") :=
  c3_collaborator_errors_propagate
    { connect := Except.ok ()
      execCommit := Except.error "database is locked"
      closeConn := Except.ok () }
    "database is locked" 60 10 c3Env rfl rfl rfl rfl rfl rfl rfl
    (by norm_num)

/-! ## Admission controller
(`_process_and_reply_with_video_note`, handlers.py 371-520, and
`handle_url_text`, handlers.py 548-597)

The module-level maps `_processed_messages`, `_processed_groups` and
`_user_busy_until` are modelled as functions (a Python dict read with
`.get(k)` / `.get(k, 0.0)`); lazy TTL sweeps are modelled pointwise.
Times are rationals (`time.time()` values supplied by the
environment). -/

/-- `_processed_ttl_seconds` (handlers.py line 35). -/
def processedTtlSeconds : ℚ := 180

/-- `_groups_ttl_seconds` (handlers.py line 54). -/
def groupsTtlSeconds : ℚ := 300

/-- The process-wide mutable admission state: message dedupe map, group
dedupe map, and per-user busy-until map (absent key reads as 0.0). -/
structure AdmState where
  processedMessages : ℤ × ℤ → Option ℚ
  processedGroups : String → Option ℚ
  userBusyUntil : ℤ → ℚ

/-- The state at process start: all maps empty. -/
def AdmState.init : AdmState :=
  { processedMessages := fun _ => none
    processedGroups := fun _ => none
    userBusyUntil := fun _ => 0 }

/-- Lazy sweep of `_processed_messages` (handlers.py 409-411): drop
entries with `now - ts > ttl`. -/
def sweepMessages (m : ℤ × ℤ → Option ℚ) (now : ℚ) :
    ℤ × ℤ → Option ℚ :=
  fun k =>
    match m k with
    | some ts => if processedTtlSeconds < now - ts then none else some ts
    | none => none

/-- Lazy sweep of `_processed_groups` (handlers.py 387-389). -/
def sweepGroups (g : String → Option ℚ) (now : ℚ) :
    String → Option ℚ :=
  fun k =>
    match g k with
    | some ts => if groupsTtlSeconds < now - ts then none else some ts
    | none => none

/-- The dedupe test (handlers.py 412):
`_processed_messages.get(key) and now - _processed_messages[key] <= ttl`
(a stored 0.0 timestamp is falsy). -/
def seenRecently (m : ℤ × ℤ → Option ℚ) (key : ℤ × ℤ) (now : ℚ) : Bool :=
  match m key with
  | some ts => if ts ≠ 0 ∧ now - ts ≤ processedTtlSeconds then true else false
  | none => false

/-- The media kind returned by `_extract_file_id` (handlers.py 172-187);
`unknown` means no usable file id was found. -/
inductive MediaKind
  | video
  | video_note
  | document
  | unknown
deriving DecidableEq, Repr

/-- One inbound Telegram message, as the handlers read it. -/
structure Req where
  chatId : ℤ
  messageId : ℤ
  fromUser : Option ℤ
  mediaGroupId : Option String
  kind : MediaKind
  fileSize : Option ℤ
  declaredDuration : Option ℤ
deriving Repr

/-- External outcomes and configuration for one
`_process_and_reply_with_video_note` call. -/
structure ProcEnv where
  now : ℚ
  userLimitMb : ℚ
  perUserLimitS : ℚ
  maxDurationS : ℤ
  analyticsOk : Bool
  downloadRun : Except String Unit
  probeDur : Option ℚ
  cs : CsEnv

/-- The handler's observable outcome for one inbound message. -/
inductive ProcOutcome
  /-- An analytics exception escaped the handler (no user answer). -/
  | unhandledError
  /-- The duplicate-album answer (handlers.py 391-395). -/
  | groupDuplicateAnswer
  /-- The "could not recognize a video" answer (handlers.py 400). -/
  | noFileAnswer
  /-- Message dedupe hit: plain `return`, no user-visible report. -/
  | silentDrop
  /-- The declared-size rejection answer (handlers.py 436-440). -/
  | sizeLimitAnswer
  /-- The rate-limit answer with the shown wait (handlers.py 452). -/
  | rateLimitAnswer (waitShown : ℤ)
  /-- The duration-limit answer inside the job (handlers.py 487-491). -/
  | durationLimitAnswer
  /-- The job ran to the end of `_convert_and_send` (acts recorded). -/
  | finished (acts : List Act)
  /-- The except-handler answered with an error (handlers.py 500-520). -/
  | errorAnswer (code : String) (acts : List Act)
deriving Repr

/-- Error-code classification in the except handler
(handlers.py 502-512). -/
def classify_error (e : String) : String :=
  let msg := lowerStr e
  if containsStr "timeout" msg then "ffmpeg_timeout"
  else if containsStr "ffmpeg ошибка" msg then "ffmpeg_error"
  else if containsStr "file is too big" msg then "tele_big"
  else if containsStr "длительность" msg then "duration_limit"
  else "other"

/-- The except handler (handlers.py 500-520): `record_error` runs first
when the message has a sender (an analytics failure there escapes), then
the user receives the error answer. -/
def exceptHandler (req : Req) (env : ProcEnv) (e : String)
    (acts : List Act) : ProcOutcome :=
  if req.fromUser.isSome && !env.analyticsOk then ProcOutcome.unhandledError
  else ProcOutcome.errorAnswer (classify_error e) acts

/-- The body of the semaphore section (handlers.py 471-520): download,
duration probe and limit check, then `_convert_and_send`, with the
except handler around it.  No admission state is touched here. -/
def runJob (req : Req) (env : ProcEnv) (duration0 : Option ℤ) :
    ProcOutcome :=
  match env.downloadRun with
  | Except.error e => exceptHandler req env e []
  | Except.ok () =>
    let duration : Option ℤ :=
      match duration0 with
      | none =>
        match env.probeDur with
        | some dd => if dd ≠ 0 then some (pyTrunc dd) else none
        | none => none
      | some dd => some dd
    match duration with
    | some dd =>
      if env.maxDurationS < dd then ProcOutcome.durationLimitAnswer
      else
        match convert_and_send env.maxDurationS req.fromUser.isSome
            duration env.cs with
        | (acts, Except.ok ()) => ProcOutcome.finished acts
        | (acts, Except.error e) => exceptHandler req env e acts
    | none =>
      match convert_and_send env.maxDurationS req.fromUser.isSome
          duration env.cs with
      | (acts, Except.ok ()) => ProcOutcome.finished acts
      | (acts, Except.error e) => exceptHandler req env e acts

/-- The declared-duration extraction (handlers.py 462-466): only video
and video_note messages carry a declared duration (0 is falsy). -/
def declaredDuration0 (req : Req) : Option ℤ :=
  match req.kind with
  | MediaKind.video | MediaKind.video_note =>
    (match req.declaredDuration with
      | some dd => if dd ≠ 0 then some dd else none
      | none => none)
  | _ => none

/-- The per-user gate and everything after it (handlers.py 443-520,
continued): read `busy_until`, reject with the remaining wait if still
busy, else set `busy_until = now + rate window` and run the job.  Only
`userBusyUntil` is ever written here. -/
def gate_and_run (st : AdmState) (req : Req) (env : ProcEnv) :
    ProcOutcome × AdmState :=
  let uid := req.fromUser.getD 0
  let busy := st.userBusyUntil uid
  if env.now < busy then
    (ProcOutcome.rateLimitAnswer (pyMaxI (pyTrunc (busy - env.now)) 1), st)
  else
    let st' := { st with userBusyUntil :=
      fun u => if u = uid then env.now + env.perUserLimitS
        else st.userBusyUntil u }
    (runJob req env (declaredDuration0 req), st')

/-- The declared-size check and the gate (handlers.py 416-520), entered
after the message dedupe entry has been recorded. -/
def after_dedupe (st : AdmState) (req : Req) (env : ProcEnv) :
    ProcOutcome × AdmState :=
  let enforce : Bool := decide (0 < env.userLimitMb)
  let user_limit_bytes := pyTrunc (pyMax env.userLimitMb 0 * 1024 * 1024)
  let media_size : Option ℤ :=
    match req.fileSize with
    | some sz => if sz ≠ 0 then some sz else none
    | none => none
  let sizeReject : Bool :=
    enforce && (match media_size with
      | some sz => decide (user_limit_bytes < sz)
      | none => false)
  if sizeReject then
    if req.fromUser.isSome && !env.analyticsOk then
      (ProcOutcome.unhandledError, st)
    else (ProcOutcome.sizeLimitAnswer, st)
  else gate_and_run st req env

/-- The file-extraction, `record_kind`, message-dedupe and later gates
(handlers.py 398-520), entered after the group dedupe. -/
def process_after_group (st : AdmState) (req : Req) (env : ProcEnv) :
    ProcOutcome × AdmState :=
  if req.kind = MediaKind.unknown then (ProcOutcome.noFileAnswer, st)
  else if req.fromUser.isSome && !env.analyticsOk then
    (ProcOutcome.unhandledError, st)
  else
    let key := (req.chatId, req.messageId)
    let m := sweepMessages st.processedMessages env.now
    if seenRecently m key env.now then
      (ProcOutcome.silentDrop, { st with processedMessages := m })
    else
      after_dedupe { st with processedMessages :=
        fun k => if k = key then some env.now else m k } req env

/-- Embedding of `_process_and_reply_with_video_note` (handlers.py
371-520): group dedupe (sweep, test, record), then file extraction,
`record_kind`, message dedupe, declared-size check, per-user gate and
the job. -/
def process_and_reply (st : AdmState) (req : Req) (env : ProcEnv) :
    ProcOutcome × AdmState :=
  match req.mediaGroupId with
  | some mgid =>
    let g := sweepGroups st.processedGroups env.now
    if (g mgid).isSome then
      (ProcOutcome.groupDuplicateAnswer, { st with processedGroups := g })
    else
      process_after_group { st with processedGroups :=
        fun k => if k = mgid then some env.now else g k } req env
  | none => process_after_group st req env

/-- External outcomes and configuration for one `handle_url_text`
call. -/
structure UrlEnv where
  now : ℚ
  perUserLimitS : ℚ
  maxDurationS : ℤ
  analyticsOk : Bool
  downloadRun : Except String Unit
  cs : CsEnv

/-- Error-code classification in `handle_url_text`'s except handler
(handlers.py 590-596). -/
def classify_url_error (e : String) : String :=
  if containsStr "timeout" (lowerStr e) then "http_timeout" else "http_error"

/-- Embedding of `handle_url_text` (handlers.py 548-597): per-user gate,
HTTP download, `_convert_and_send` with unknown duration; there is no
message dedupe and no group dedupe on this path, and only
`userBusyUntil` is ever written. -/
def handle_url_text (st : AdmState) (req : Req) (hasUrl : Bool)
    (env : UrlEnv) : ProcOutcome × AdmState :=
  if !hasUrl then (ProcOutcome.silentDrop, st)
  else
    let uid := req.fromUser.getD 0
    let busy := st.userBusyUntil uid
    if env.now < busy then
      (ProcOutcome.rateLimitAnswer (pyMaxI (pyTrunc (busy - env.now)) 1), st)
    else
      let st' := { st with userBusyUntil :=
        fun u => if u = uid then env.now + env.perUserLimitS
          else st.userBusyUntil u }
      match env.downloadRun with
      | Except.error e =>
        (if req.fromUser.isSome && !env.analyticsOk then
            ProcOutcome.unhandledError
          else ProcOutcome.errorAnswer (classify_url_error e) [], st')
      | Except.ok () =>
        match convert_and_send env.maxDurationS req.fromUser.isSome none
            env.cs with
        | (acts, Except.ok ()) => (ProcOutcome.finished acts, st')
        | (acts, Except.error e) =>
          (if req.fromUser.isSome && !env.analyticsOk then
              ProcOutcome.unhandledError
            else ProcOutcome.errorAnswer (classify_url_error e) acts, st')

/-- The gate update applied when the per-user gate is passed. -/
def gateSet (st : AdmState) (uid : ℤ) (untilTs : ℚ) : AdmState :=
  { st with userBusyUntil :=
    fun u => if u = uid then untilTs else st.userBusyUntil u }

theorem gate_and_run_cases (st : AdmState) (req : Req) (env : ProcEnv) :
    gate_and_run st req env =
      (ProcOutcome.rateLimitAnswer
        (pyMaxI (pyTrunc (st.userBusyUntil (req.fromUser.getD 0) - env.now))
          1), st)
    ∨ (¬ env.now < st.userBusyUntil (req.fromUser.getD 0) ∧
        gate_and_run st req env =
          (runJob req env (declaredDuration0 req),
            gateSet st (req.fromUser.getD 0)
              (env.now + env.perUserLimitS))) := by
  simp only [gate_and_run]
  split
  · exact Or.inl rfl
  · exact Or.inr ⟨by assumption, rfl⟩

theorem after_dedupe_cases (st : AdmState) (req : Req) (env : ProcEnv) :
    after_dedupe st req env = (ProcOutcome.unhandledError, st)
    ∨ after_dedupe st req env = (ProcOutcome.sizeLimitAnswer, st)
    ∨ after_dedupe st req env = gate_and_run st req env := by
  simp only [after_dedupe]
  split
  · split
    · exact Or.inl rfl
    · exact Or.inr (Or.inl rfl)
  · exact Or.inr (Or.inr rfl)

theorem process_after_group_cases (st : AdmState) (req : Req)
    (env : ProcEnv) :
    process_after_group st req env = (ProcOutcome.noFileAnswer, st)
    ∨ process_after_group st req env = (ProcOutcome.unhandledError, st)
    ∨ process_after_group st req env =
        (ProcOutcome.silentDrop,
          { st with
            processedMessages := sweepMessages st.processedMessages env.now })
    ∨ process_after_group st req env =
        after_dedupe
          { st with
            processedMessages :=
              fun k =>
                if k = (req.chatId, req.messageId) then some env.now
                else sweepMessages st.processedMessages env.now k }
          req env := by
  simp only [process_after_group]
  split
  · exact Or.inl rfl
  · split
    · exact Or.inr (Or.inl rfl)
    · split
      · exact Or.inr (Or.inr (Or.inl rfl))
      · exact Or.inr (Or.inr (Or.inr rfl))

theorem process_and_reply_cases (st : AdmState) (req : Req)
    (env : ProcEnv) :
    (∃ g, process_and_reply st req env =
      (ProcOutcome.groupDuplicateAnswer, { st with processedGroups := g }))
    ∨ (∃ g, process_and_reply st req env =
        process_after_group { st with processedGroups := g } req env) := by
  simp only [process_and_reply]
  split
  · split
    · exact Or.inl ⟨_, rfl⟩
    · exact Or.inr ⟨_, rfl⟩
  · exact Or.inr ⟨st.processedGroups, rfl⟩

/-- C2 (amended): the per-user busy marker is written only when the gate
is passed, in which case it is set to admission time plus the cooldown
window; no later step of the pipeline ever clears or releases it — in
particular, after a duration-limit rejection the marker still holds the
full admission-time cooldown (the gate is not released), and after a
completed job it is likewise left to expire on its own. -/
theorem c2_busy_marker_set_once_never_cleared (st : AdmState) (req : Req)
    (env : ProcEnv) :
    ((process_and_reply st req env).2.userBusyUntil = st.userBusyUntil ∨
      (process_and_reply st req env).2.userBusyUntil =
        fun u => if u = req.fromUser.getD 0 then
          env.now + env.perUserLimitS else st.userBusyUntil u)
    ∧ ((process_and_reply st req env).1 =
          ProcOutcome.durationLimitAnswer →
        (process_and_reply st req env).2.userBusyUntil
          (req.fromUser.getD 0) = env.now + env.perUserLimitS) := by
  rcases process_and_reply_cases st req env with ⟨g, hg⟩ | ⟨g, hg⟩
  · rw [hg]
    exact ⟨Or.inl rfl, fun h => absurd h (by simp)⟩
  · rw [hg]
    rcases process_after_group_cases { st with processedGroups := g } req
      env with h1 | h1 | h1 | h1
    all_goals rw [h1]
    · exact ⟨Or.inl rfl, fun h => absurd h (by simp)⟩
    · exact ⟨Or.inl rfl, fun h => absurd h (by simp)⟩
    · exact ⟨Or.inl rfl, fun h => absurd h (by simp)⟩
    · rcases after_dedupe_cases _ req env with h2 | h2 | h2
      all_goals rw [h2]
      · exact ⟨Or.inl rfl, fun h => absurd h (by simp)⟩
      · exact ⟨Or.inl rfl, fun h => absurd h (by simp)⟩
      · rcases gate_and_run_cases _ req env with h3 | ⟨hng, h3⟩
        all_goals rw [h3]
        · exact ⟨Or.inl rfl, fun h => absurd h (by simp)⟩
        · constructor
          · refine Or.inr ?_
            funext u
            simp only [gateSet]
          · intro h
            simp [gateSet]

/-- A fully benign delivery environment: conversion succeeds and the
note send succeeds. -/
def csOk : CsEnv where
  probeDur := none
  convert := Except.ok ()
  canSendVn := true
  noteSend := none
  videoSend := none
  docSend := none
  metrics := metricsOk

/-- C2 counterexample request: a 120 s video (over the 60 s limit) from
user 42. -/
def c2Req : Req where
  chatId := 1
  messageId := 2
  fromUser := some 42
  mediaGroupId := none
  kind := MediaKind.video
  fileSize := none
  declaredDuration := some 120

/-- C2 counterexample environment: admission at t = 1000 with a 20 s
cooldown and a 60 s duration limit. -/
def c2Env : ProcEnv where
  now := 1000
  userLimitMb := 0
  perUserLimitS := 20
  maxDurationS := 60
  analyticsOk := true
  downloadRun := Except.ok ()
  probeDur := none
  cs := csOk

/-- The same user's follow-up request at t = 1005 (within the nominal
cooldown left over from the rejected job). -/
def c2Req2 : Req where
  chatId := 1
  messageId := 3
  fromUser := some 42
  mediaGroupId := none
  kind := MediaKind.video
  fileSize := none
  declaredDuration := some 10

/-- Environment of the follow-up request at t = 1005. -/
def c2Env2 : ProcEnv where
  now := 1005
  userLimitMb := 0
  perUserLimitS := 20
  maxDurationS := 60
  analyticsOk := true
  downloadRun := Except.ok ()
  probeDur := none
  cs := csOk

/-- C2 counterexample: the duration-limit rejection does not release the
per-user gate — after the bail at t = 1000 the busy marker still reads
1020, and the same user's next request at t = 1005 is rate-limited with
a 15 s wait.  The busy marker is never cleared by any pipeline end; it
only expires by time. -/
theorem c2_duration_limit_keeps_gate_cex :
    (process_and_reply AdmState.init c2Req c2Env).1 =
      ProcOutcome.durationLimitAnswer
    ∧ (process_and_reply AdmState.init c2Req c2Env).2.userBusyUntil 42 =
        1020
    ∧ (1005 : ℚ) <
        (process_and_reply AdmState.init c2Req c2Env).2.userBusyUntil 42
    ∧ (process_and_reply (process_and_reply AdmState.init c2Req c2Env).2
        c2Req2 c2Env2).1 = ProcOutcome.rateLimitAnswer 15 := by
  have hne : ¬ (MediaKind.video = MediaKind.unknown) := by simp
  refine ⟨?_, ?_, ?_, ?_⟩
  · norm_num [process_and_reply, process_after_group, after_dedupe,
      gate_and_run, runJob, exceptHandler, declaredDuration0,
      seenRecently, sweepMessages, sweepGroups, gateSet, AdmState.init,
      processedTtlSeconds, groupsTtlSeconds,
      c2Req, c2Env, csOk, metricsOk, pyTrunc, pyMaxI, pyMax, hne]
  · norm_num [process_and_reply, process_after_group, after_dedupe,
      gate_and_run, runJob, exceptHandler, declaredDuration0,
      seenRecently, sweepMessages, sweepGroups, gateSet, AdmState.init,
      processedTtlSeconds, groupsTtlSeconds,
      c2Req, c2Env, csOk, metricsOk, pyTrunc, pyMaxI, pyMax, hne]
  · norm_num [process_and_reply, process_after_group, after_dedupe,
      gate_and_run, runJob, exceptHandler, declaredDuration0,
      seenRecently, sweepMessages, sweepGroups, gateSet, AdmState.init,
      processedTtlSeconds, groupsTtlSeconds,
      c2Req, c2Env, csOk, metricsOk, pyTrunc, pyMaxI, pyMax, hne]
  · norm_num [process_and_reply, process_after_group, after_dedupe,
      gate_and_run, runJob, exceptHandler, declaredDuration0,
      seenRecently, sweepMessages, sweepGroups, gateSet, AdmState.init,
      processedTtlSeconds, groupsTtlSeconds,
      c2Req, c2Env, c2Req2, c2Env2, csOk, metricsOk, pyTrunc, pyMaxI,
      pyMax, hne]

theorem c2_busy_marker_set_once_never_cleared_witness :
    ((process_and_reply AdmState.init c2Req c2Env).2.userBusyUntil =
        AdmState.init.userBusyUntil ∨
      (process_and_reply AdmState.init c2Req c2Env).2.userBusyUntil =
        fun u => if u = c2Req.fromUser.getD 0 then
          c2Env.now + c2Env.perUserLimitS
        else AdmState.init.userBusyUntil u)
    ∧ ((process_and_reply AdmState.init c2Req c2Env).1 =
          ProcOutcome.durationLimitAnswer →
        (process_and_reply AdmState.init c2Req c2Env).2.userBusyUntil
          (c2Req.fromUser.getD 0) = c2Env.now + c2Env.perUserLimitS) :=
  c2_busy_marker_set_once_never_cleared AdmState.init c2Req c2Env

/-- C6 request: a video in chat 5, message id 7, from user 9. -/
def c6Req : Req where
  chatId := 5
  messageId := 7
  fromUser := some 9
  mediaGroupId := none
  kind := MediaKind.video
  fileSize := none
  declaredDuration := some 30

/-- C6 first (media) submission environment at t = 100. -/
def c6MediaEnv : ProcEnv where
  now := 100
  userLimitMb := 0
  perUserLimitS := 20
  maxDurationS := 60
  analyticsOk := true
  downloadRun := Except.ok ()
  probeDur := none
  cs := csOk

/-- C6 media resend environment at t = 150 (within the 180 s TTL). -/
def c6MediaEnv2 : ProcEnv where
  now := 150
  userLimitMb := 0
  perUserLimitS := 20
  maxDurationS := 60
  analyticsOk := true
  downloadRun := Except.ok ()
  probeDur := none
  cs := csOk

/-- C6 url resend environment at t = 150 (within the 180 s TTL). -/
def c6UrlEnv : UrlEnv where
  now := 150
  perUserLimitS := 20
  maxDurationS := 60
  analyticsOk := true
  downloadRun := Except.ok ()
  cs := csOk

/-- C6 counterexample: after the media request records the (5, 7) dedupe
key at t = 100, a url-text request for the same (chat, message) key at
t = 150 — well inside the 180 s TTL — is admitted and runs the full job
(the url handler consults no message-dedupe state), while the same
resend through the media path is silently dropped. -/
theorem c6_url_path_skips_dedupe_cex :
    (process_and_reply AdmState.init c6Req c6MediaEnv).2.processedMessages
        (5, 7) = some 100
    ∧ (handle_url_text (process_and_reply AdmState.init c6Req
        c6MediaEnv).2 c6Req true c6UrlEnv).1 =
        ProcOutcome.finished [Act.answerPromise, Act.sendNoteAttempt]
    ∧ (150 : ℚ) - 100 ≤ processedTtlSeconds
    ∧ (process_and_reply (process_and_reply AdmState.init c6Req
        c6MediaEnv).2 c6Req c6MediaEnv2).1 = ProcOutcome.silentDrop := by
  have hne : ¬ (MediaKind.video = MediaKind.unknown) := by simp
  refine ⟨?_, ?_, ?_, ?_⟩
  · norm_num [process_and_reply, process_after_group, after_dedupe,
      gate_and_run, runJob, exceptHandler, declaredDuration0,
      seenRecently, sweepMessages, sweepGroups, gateSet, AdmState.init,
      processedTtlSeconds, groupsTtlSeconds,
      c6Req, c6MediaEnv, csOk, metricsOk, pyTrunc, pyMaxI, pyMax, hne,
      convert_and_send, convert_and_send.convert_and_send_after_duration,
      metricsTail]
  · norm_num [process_and_reply, process_after_group, after_dedupe,
      gate_and_run, runJob, exceptHandler, declaredDuration0,
      seenRecently, sweepMessages, sweepGroups, gateSet, AdmState.init,
      processedTtlSeconds, groupsTtlSeconds,
      c6Req, c6MediaEnv, c6UrlEnv, csOk, metricsOk, pyTrunc, pyMaxI,
      pyMax, hne, handle_url_text, classify_url_error, convert_and_send,
      convert_and_send.convert_and_send_after_duration, metricsTail]
  · norm_num [processedTtlSeconds]
  · norm_num [process_and_reply, process_after_group, after_dedupe,
      gate_and_run, runJob, exceptHandler, declaredDuration0,
      seenRecently, sweepMessages, sweepGroups, gateSet, AdmState.init,
      processedTtlSeconds, groupsTtlSeconds,
      c6Req, c6MediaEnv, c6MediaEnv2, csOk, metricsOk, pyTrunc, pyMaxI,
      pyMax, hne, convert_and_send,
      convert_and_send.convert_and_send_after_duration, metricsTail]

/-- C6 (amended): on the media path a request whose (chat, message) key
was seen within the TTL is rejected silently (no user-visible answer, no
job), but the url-text path consults no message-dedupe state at all: its
outcome is unchanged under any replacement of the dedupe map, and it
never writes that map. -/
theorem c6_media_dedupe_but_url_not_deduped :
    (∀ (st : AdmState) (req : Req) (env : ProcEnv),
      req.mediaGroupId = none → ¬ req.kind = MediaKind.unknown →
      env.analyticsOk = true →
      seenRecently (sweepMessages st.processedMessages env.now)
        (req.chatId, req.messageId) env.now = true →
      process_and_reply st req env =
        (ProcOutcome.silentDrop,
          { st with
            processedMessages :=
              sweepMessages st.processedMessages env.now }))
    ∧ (∀ (st : AdmState) (req : Req) (hasUrl : Bool) (env : UrlEnv)
        (pm : ℤ × ℤ → Option ℚ),
        (handle_url_text st req hasUrl env).2.processedMessages =
          st.processedMessages
        ∧ (handle_url_text { st with processedMessages := pm } req hasUrl
            env).1 = (handle_url_text st req hasUrl env).1) := by
  constructor
  · intro st req env hg hk ha hseen
    simp only [process_and_reply, hg]
    simp only [process_after_group, if_neg hk, ha, Bool.not_true,
      Bool.and_false, Bool.if_false_left, hseen, if_true]
    simp
  · intro st req hasUrl env pm
    constructor
    · simp only [handle_url_text]
      split
      · rfl
      · split
        · rfl
        · split
          · rfl
          · split
            · rfl
            · rfl
    · simp only [handle_url_text]
      split
      · rfl
      · split
        · rfl
        · split
          · rfl
          · split
            · rfl
            · rfl

theorem after_dedupe_pm (st : AdmState) (req : Req) (env : ProcEnv) :
    (after_dedupe st req env).2.processedMessages = st.processedMessages := by
  rcases after_dedupe_cases st req env with h | h | h
  · rw [h]
  · rw [h]
  · rw [h]
    rcases gate_and_run_cases st req env with h2 | ⟨_, h2⟩
    · rw [h2]
    · rw [h2]
      rfl

/-- After an admission that reaches the message-dedupe record (no group
duplicate, recognized file, analytics fine, dedupe miss), the final
dedupe map holds the key with the admission time, whatever the rest of
the pipeline does. -/
theorem process_records_key (st : AdmState) (req : Req) (env : ProcEnv)
    (hg : req.mediaGroupId = none)
    (hk : ¬ req.kind = MediaKind.unknown)
    (hana : (req.fromUser.isSome && !env.analyticsOk) = false)
    (hseen : seenRecently (sweepMessages st.processedMessages env.now)
      (req.chatId, req.messageId) env.now = false) :
    (process_and_reply st req env).2.processedMessages =
      fun k => if k = (req.chatId, req.messageId) then some env.now
        else sweepMessages st.processedMessages env.now k := by
  simp only [process_and_reply, hg]
  simp only [process_after_group, if_neg hk, hana, Bool.false_eq_true,
    if_false, hseen]
  rw [after_dedupe_pm]

/-- A media-path request whose key was seen within the TTL is silently
dropped with no state change beyond the lazy sweep. -/
theorem process_silent_drop (st : AdmState) (req : Req) (env : ProcEnv)
    (hg : req.mediaGroupId = none)
    (hk : ¬ req.kind = MediaKind.unknown)
    (hana : (req.fromUser.isSome && !env.analyticsOk) = false)
    (hseen : seenRecently (sweepMessages st.processedMessages env.now)
      (req.chatId, req.messageId) env.now = true) :
    process_and_reply st req env =
      (ProcOutcome.silentDrop,
        { st with
          processedMessages := sweepMessages st.processedMessages
            env.now }) := by
  simp only [process_and_reply, hg]
  simp only [process_after_group, if_neg hk, hana, Bool.false_eq_true,
    if_false, hseen, if_true]

/-- A media-path request that passes every gate sets the busy marker and
runs the job; the final state is the dedupe record plus the gate set. -/
theorem process_admits (st : AdmState) (req : Req) (env : ProcEnv)
    (hg : req.mediaGroupId = none)
    (hk : ¬ req.kind = MediaKind.unknown)
    (hana : (req.fromUser.isSome && !env.analyticsOk) = false)
    (hseen : seenRecently (sweepMessages st.processedMessages env.now)
      (req.chatId, req.messageId) env.now = false)
    (hf : req.fileSize = none)
    (hgate : ¬ env.now < st.userBusyUntil (req.fromUser.getD 0)) :
    process_and_reply st req env =
      (runJob req env (declaredDuration0 req),
        gateSet
          { st with
            processedMessages := fun k =>
              if k = (req.chatId, req.messageId) then some env.now
              else sweepMessages st.processedMessages env.now k }
          (req.fromUser.getD 0) (env.now + env.perUserLimitS)) := by
  simp only [process_and_reply, hg]
  simp only [process_after_group, if_neg hk, hana, Bool.false_eq_true,
    if_false, hseen]
  simp only [after_dedupe, hf, Bool.and_false, Bool.false_eq_true,
    if_false]
  simp only [gate_and_run, if_neg hgate]
  rfl

/-- A media-path request that reaches the per-user gate while the busy
marker is still in the future is rate-limited with the truncated
remaining wait (floored at 1 s). -/
theorem process_rate_limited (st : AdmState) (req : Req) (env : ProcEnv)
    (hg : req.mediaGroupId = none)
    (hk : ¬ req.kind = MediaKind.unknown)
    (hana : (req.fromUser.isSome && !env.analyticsOk) = false)
    (hseen : seenRecently (sweepMessages st.processedMessages env.now)
      (req.chatId, req.messageId) env.now = false)
    (hf : req.fileSize = none)
    (hbusy : env.now < st.userBusyUntil (req.fromUser.getD 0)) :
    process_and_reply st req env =
      (ProcOutcome.rateLimitAnswer
        (pyMaxI
          (pyTrunc (st.userBusyUntil (req.fromUser.getD 0) - env.now)) 1),
        { st with
          processedMessages := fun k =>
            if k = (req.chatId, req.messageId) then some env.now
            else sweepMessages st.processedMessages env.now k }) := by
  simp only [process_and_reply, hg]
  simp only [process_after_group, if_neg hk, hana, Bool.false_eq_true,
    if_false, hseen]
  simp only [after_dedupe, hf, Bool.and_false, Bool.false_eq_true,
    if_false]
  simp only [gate_and_run, if_pos hbusy]

theorem c6_media_dedupe_but_url_not_deduped_witness :
    (process_and_reply (process_and_reply AdmState.init c6Req
        c6MediaEnv).2 c6Req c6MediaEnv2 =
      (ProcOutcome.silentDrop,
        { (process_and_reply AdmState.init c6Req c6MediaEnv).2 with
          processedMessages := sweepMessages
            (process_and_reply AdmState.init c6Req
              c6MediaEnv).2.processedMessages c6MediaEnv2.now }))
    ∧ ((handle_url_text AdmState.init c6Req true
          c6UrlEnv).2.processedMessages = AdmState.init.processedMessages
      ∧ (handle_url_text
          { AdmState.init with processedMessages := fun _ => some 1 }
          c6Req true c6UrlEnv).1 =
          (handle_url_text AdmState.init c6Req true c6UrlEnv).1) := by
  constructor
  · have hpm := process_records_key AdmState.init c6Req c6MediaEnv rfl
      (by simp [c6Req]) (by simp [c6Req, c6MediaEnv])
      (by norm_num [seenRecently, sweepMessages, AdmState.init])
    refine c6_media_dedupe_but_url_not_deduped.1 _ c6Req c6MediaEnv2 rfl
      (by simp [c6Req]) rfl ?_
    rw [hpm]
    norm_num [seenRecently, sweepMessages, AdmState.init, c6Req,
      c6MediaEnv, c6MediaEnv2, processedTtlSeconds]
  · exact c6_media_dedupe_but_url_not_deduped.2 AdmState.init c6Req true
      c6UrlEnv (fun _ => some 1)

/-- C9: the (chat, message) dedupe entry is recorded before the job runs
and no failure path removes it: whatever the job's outcome (download
error, duration-limit rejection, transcode error or delivery error, all
contained in the arbitrary environment), the final dedupe map holds the
key with the admission time, and a resend of the same key within the
180 s TTL is silently dropped. -/
theorem c9_dedupe_recorded_before_job_persists_failure
    (st : AdmState) (req req2 : Req) (env env2 : ProcEnv)
    (hg : req.mediaGroupId = none)
    (hk : ¬ req.kind = MediaKind.unknown)
    (hana : (req.fromUser.isSome && !env.analyticsOk) = false)
    (hseen : seenRecently (sweepMessages st.processedMessages env.now)
      (req.chatId, req.messageId) env.now = false)
    (hg2 : req2.mediaGroupId = none)
    (hk2 : ¬ req2.kind = MediaKind.unknown)
    (hana2 : (req2.fromUser.isSome && !env2.analyticsOk) = false)
    (hc2 : req2.chatId = req.chatId) (hm2 : req2.messageId = req.messageId)
    (ht0 : env.now ≠ 0)
    (httl : env2.now - env.now ≤ processedTtlSeconds) :
    (process_and_reply st req env).2.processedMessages
      (req.chatId, req.messageId) = some env.now
    ∧ (process_and_reply (process_and_reply st req env).2 req2 env2).1 =
        ProcOutcome.silentDrop := by
  have hpm := process_records_key st req env hg hk hana hseen
  constructor
  · rw [hpm]
    simp
  · have hswp : sweepMessages
        (process_and_reply st req env).2.processedMessages env2.now
          (req2.chatId, req2.messageId) = some env.now := by
      rw [hpm, hc2, hm2]
      simp only [sweepMessages, eq_self_iff_true, if_true]
      rw [if_neg (not_lt.mpr httl)]
    have hseen2 : seenRecently
        (sweepMessages (process_and_reply st req env).2.processedMessages
          env2.now) (req2.chatId, req2.messageId) env2.now = true := by
      simp only [seenRecently, hswp]
      rw [if_pos ⟨ht0, httl⟩]
    rw [process_silent_drop _ req2 env2 hg2 hk2 hana2 hseen2]

/-- C9 witness request: a 30 s video in chat 11, message 12, user 3. -/
def c9Req : Req where
  chatId := 11
  messageId := 12
  fromUser := some 3
  mediaGroupId := none
  kind := MediaKind.video
  fileSize := none
  declaredDuration := some 30

/-- C9 witness: first submission at t = 200 whose transcode fails. -/
def c9Env : ProcEnv where
  now := 200
  userLimitMb := 0
  perUserLimitS := 20
  maxDurationS := 60
  analyticsOk := true
  downloadRun := Except.ok ()
  probeDur := none
  cs := { csOk with convert := Except.error "FFmpeg ошибка:\nboom" }

/-- C9 witness: resend of the same message at t = 300 (within TTL). -/
def c9Env2 : ProcEnv where
  now := 300
  userLimitMb := 0
  perUserLimitS := 20
  maxDurationS := 60
  analyticsOk := true
  downloadRun := Except.ok ()
  probeDur := none
  cs := csOk

theorem c9_dedupe_recorded_before_job_persists_failure_witness :
    (process_and_reply AdmState.init c9Req c9Env).2.processedMessages
      (c9Req.chatId, c9Req.messageId) = some c9Env.now
    ∧ (process_and_reply (process_and_reply AdmState.init c9Req c9Env).2
        c9Req c9Env2).1 = ProcOutcome.silentDrop :=
  c9_dedupe_recorded_before_job_persists_failure AdmState.init c9Req c9Req
    c9Env c9Env2 rfl (by simp [c9Req]) (by simp [c9Req, c9Env])
    (by norm_num [seenRecently, sweepMessages, AdmState.init])
    rfl (by simp [c9Req]) (by simp [c9Req, c9Env2]) rfl rfl
    (by norm_num [c9Env]) (by norm_num [c9Env, c9Env2, processedTtlSeconds])

/-- C10: when the sender is unknown the gate key defaults to user id 0,
so all unknown-sender requests share one rate-limit gate: after one
unknown-sender request passes the gate at `now₁`, any other
unknown-sender request (any chat) before `now₁ + cooldown` is
rate-limited with the shared remaining wait. -/
theorem c10_unknown_sender_shares_gate_zero
    (st : AdmState) (req1 req2 : Req) (env1 env2 : ProcEnv)
    (h1u : req1.fromUser = none) (h2u : req2.fromUser = none)
    (hg1 : req1.mediaGroupId = none)
    (hk1 : ¬ req1.kind = MediaKind.unknown)
    (hs1 : seenRecently (sweepMessages st.processedMessages env1.now)
      (req1.chatId, req1.messageId) env1.now = false)
    (hf1 : req1.fileSize = none)
    (hgate : ¬ env1.now < st.userBusyUntil 0)
    (hg2 : req2.mediaGroupId = none)
    (hk2 : ¬ req2.kind = MediaKind.unknown)
    (hs2 : seenRecently
      (sweepMessages (process_and_reply st req1 env1).2.processedMessages
        env2.now) (req2.chatId, req2.messageId) env2.now = false)
    (hf2 : req2.fileSize = none)
    (hlt : env2.now < env1.now + env1.perUserLimitS) :
    (process_and_reply st req1 env1).2.userBusyUntil 0 =
      env1.now + env1.perUserLimitS
    ∧ (process_and_reply (process_and_reply st req1 env1).2 req2 env2).1 =
        ProcOutcome.rateLimitAnswer
          (pyMaxI (pyTrunc (env1.now + env1.perUserLimitS - env2.now))
            1) := by
  have hana1 : (req1.fromUser.isSome && !env1.analyticsOk) = false := by
    rw [h1u]
    rfl
  have hana2 : (req2.fromUser.isSome && !env2.analyticsOk) = false := by
    rw [h2u]
    rfl
  have hgate1 : ¬ env1.now < st.userBusyUntil (req1.fromUser.getD 0) := by
    rw [h1u]
    exact hgate
  have hrun := process_admits st req1 env1 hg1 hk1 hana1 hs1 hf1 hgate1
  have hbusy1 : (process_and_reply st req1 env1).2.userBusyUntil 0 =
      env1.now + env1.perUserLimitS := by
    rw [hrun, h1u]
    simp [gateSet]
  refine ⟨hbusy1, ?_⟩
  have hbusy2 : env2.now <
      (process_and_reply st req1 env1).2.userBusyUntil
        (req2.fromUser.getD 0) := by
    rw [h2u]
    show env2.now < (process_and_reply st req1 env1).2.userBusyUntil 0
    rw [hbusy1]
    exact hlt
  have harg : (process_and_reply st req1 env1).2.userBusyUntil
      (req2.fromUser.getD 0) = env1.now + env1.perUserLimitS := by
    rw [h2u]
    exact hbusy1
  rw [process_rate_limited _ req2 env2 hg2 hk2 hana2 hs2 hf2 hbusy2]
  show ProcOutcome.rateLimitAnswer _ = _
  rw [harg]

/-- C10 witness: two unknown-sender requests in different chats. -/
def c10Req1 : Req where
  chatId := 21
  messageId := 1
  fromUser := none
  mediaGroupId := none
  kind := MediaKind.video
  fileSize := none
  declaredDuration := some 30

/-- C10 witness: the second unknown-sender request (different chat). -/
def c10Req2 : Req where
  chatId := 22
  messageId := 9
  fromUser := none
  mediaGroupId := none
  kind := MediaKind.video
  fileSize := none
  declaredDuration := some 30

/-- C10 witness env: first request at t = 200 (cooldown 20 s). -/
def c10Env1 : ProcEnv where
  now := 200
  userLimitMb := 0
  perUserLimitS := 20
  maxDurationS := 60
  analyticsOk := true
  downloadRun := Except.ok ()
  probeDur := none
  cs := csOk

/-- C10 witness env: second request at t = 210. -/
def c10Env2 : ProcEnv where
  now := 210
  userLimitMb := 0
  perUserLimitS := 20
  maxDurationS := 60
  analyticsOk := true
  downloadRun := Except.ok ()
  probeDur := none
  cs := csOk

theorem c10_unknown_sender_shares_gate_zero_witness :
    (process_and_reply AdmState.init c10Req1 c10Env1).2.userBusyUntil 0 =
      c10Env1.now + c10Env1.perUserLimitS
    ∧ (process_and_reply
        (process_and_reply AdmState.init c10Req1 c10Env1).2 c10Req2
        c10Env2).1 =
        ProcOutcome.rateLimitAnswer
          (pyMaxI
            (pyTrunc (c10Env1.now + c10Env1.perUserLimitS - c10Env2.now))
            1) := by
  have hpm := process_records_key AdmState.init c10Req1 c10Env1 rfl
    (by simp [c10Req1]) rfl
    (by norm_num [seenRecently, sweepMessages, AdmState.init])
  have hs2 : seenRecently
      (sweepMessages
        (process_and_reply AdmState.init c10Req1 c10Env1).2.processedMessages
        c10Env2.now) (c10Req2.chatId, c10Req2.messageId) c10Env2.now =
      false := by
    rw [hpm]
    norm_num [seenRecently, sweepMessages, AdmState.init, c10Req1,
      c10Req2, c10Env1, c10Env2, processedTtlSeconds]
  exact c10_unknown_sender_shares_gate_zero AdmState.init c10Req1 c10Req2
    c10Env1 c10Env2 rfl rfl rfl (by simp [c10Req1])
    (by norm_num [seenRecently, sweepMessages, AdmState.init])
    rfl (by norm_num [AdmState.init, c10Env1]) rfl (by simp [c10Req2])
    hs2 rfl (by norm_num [c10Env1, c10Env2])

end VideoNoteBot
